import Mathlib

/-!
Verification of the VoxcoSurveyBot chatbot against its design notes.

The development embeds the two Python source files,
`gemini_chatbot/utils/gemini_client.py` and `gemini_chatbot/main.py`,
as Lean definitions.  HTTP traffic is modelled by an oracle
`Net : HttpRequest → HttpResult` supplied to each function, and every
embedded function additionally returns the list of HTTP requests it
actually issued, so "issues no HTTP request" is the statement that this
list is empty.  Python exceptions are modelled with `Except PyExc`;
a function whose Lean type has no `Except` layer cannot raise.
-/

namespace VoxcoSurveyBot

/-- A JSON value, as produced by `response.json()` in the `requests` library. -/
inductive JValue where
  | null
  | bool (b : Bool)
  | num (n : Int)
  | str (s : String)
  | arr (elems : List JValue)
  | obj (fields : List (String × JValue))

/-- Python exceptions that the embedded code can raise. -/
inductive PyExc where
  | valueError (msg : String)
  | attributeError (msg : String)
  | runtimeError (msg : String)
deriving Repr, DecidableEq

/-- `str(e)` for an exception: the message it carries. -/
def PyExc.message : PyExc → String
  | .valueError m => m
  | .attributeError m => m
  | .runtimeError m => m

/-- Python `s.lower()`, character by character. -/
def pyLower (s : String) : String :=
  ⟨s.data.map Char.toLower⟩

/-- Python `s.strip()`: drop whitespace from both ends. -/
def pyStrip (s : String) : String :=
  ⟨((s.data.dropWhile Char.isWhitespace).reverse.dropWhile
      Char.isWhitespace).reverse⟩

/-- Python `s.startswith(p)`. -/
def pyStartsWith (s p : String) : Bool :=
  p.data.isPrefixOf s.data

/-- Python `s[n:]`. -/
def pyDrop (s : String) (n : Nat) : String :=
  ⟨s.data.drop n⟩

/-- Python truthiness of an optional string value (`None` and `""` are falsy). -/
def truthyStr : Option String → Bool
  | none => false
  | some s => s ≠ ""

/-- Python `a or b` on optional string values. -/
def pyOrStr (a b : Option String) : Option String :=
  if truthyStr a then a else b

/-- Python truthiness of a JSON value. -/
def JValue.truthy : JValue → Bool
  | .null => false
  | .bool b => b
  | .num n => n ≠ 0
  | .str s => s ≠ ""
  | .arr elems => !elems.isEmpty
  | .obj fields => !fields.isEmpty

/-- Python truthiness of `dict.get`-style results (`None` is falsy). -/
def truthyJ : Option JValue → Bool
  | none => false
  | some v => v.truthy

/-- `data.get(key)`: `None` when the key is missing; raises `AttributeError`
when `data` is not a dict (only `obj` parses to a Python dict). -/
def JValue.get : JValue → String → Except PyExc (Option JValue)
  | .obj fields, key => .ok (List.lookup key fields)
  | _, _ => .error (.attributeError "get")

/-- One HTTP request as issued through the `requests` library. -/
structure HttpRequest where
  method : String
  url : String
  headers : List (String × String)
deriving Repr, DecidableEq

/-- Outcome of one HTTP round trip as `requests` surfaces it to this code:
`ok body` is a 2xx response whose body parses as JSON `body`;
`httpError` is a non-2xx status, on which `raise_for_status()` raises a
`RequestException`; `transportError` is a network failure, on which the
request call itself raises a `RequestException`. -/
inductive HttpResult where
  | ok (body : JValue)
  | httpError
  | transportError

/-- The network environment: what each request would come back as. -/
def Net : Type := HttpRequest → HttpResult

/-! ## gemini_client.py, module-level adapter functions -/

/-- The authentication URL built by `authenticate_voxco` (f-string, line 34). -/
def authUrl (username password : String) : String :=
  "https://beta7.voxco.com/api/authentication/user?userInfo.username="
    ++ username ++ "&userInfo.password=" ++ password

/-- The GET request issued by `authenticate_voxco` (line 37). -/
def authRequest (username password : String) : HttpRequest :=
  { method := "GET", url := authUrl username password, headers := [] }

/-- `authenticate_voxco` (gemini_client.py lines 22-46): GET the auth URL,
`raise_for_status`, then return `data.get("Token")`; any
`RequestException` is caught and converted to `None`. -/
def authenticate_voxco (net : Net) (username password : String) :
    Except PyExc (Option JValue) × List HttpRequest :=
  let req := authRequest username password
  match net req with
  | .ok body =>
    match body.get "Token" with
    | .ok token => (.ok token, [req])
    | .error e => (.error e, [req])
  | .httpError => (.ok none, [req])
  | .transportError => (.ok none, [req])

/-- The export URL built by `load_survey` (line 65). -/
def surveyExportUrl (survey_id : Int) : String :=
  "https://beta7.voxco.com/api/survey/export/json/" ++ toString survey_id
    ++ "?deployed=false&modality=Master"

/-- `load_survey` (gemini_client.py lines 49-76): return `None` at once when
the token is falsy, with no request issued; otherwise GET the export URL
with a `Client <token>` header and return the JSON body, converting any
`RequestException` to `None`. -/
def load_survey (net : Net) (token : Option String) (survey_id : Int) :
    Option JValue × List HttpRequest :=
  if truthyStr token = false then (none, [])
  else
    let req : HttpRequest :=
      { method := "GET", url := surveyExportUrl survey_id,
        headers := [("Authorization", "Client " ++ token.getD "")] }
    match net req with
    | .ok body => (some body, [req])
    | .httpError => (none, [req])
    | .transportError => (none, [req])

/-- `save_survey` (gemini_client.py lines 79-112).  Line 93 is an
unconditional `return True` placed before the token check and the whole
network block, so the function returns `True` and issues no request for
every input; the bypassed block is embedded separately as
`save_survey_dead_code`. -/
def save_survey (net : Net) (token : Option String) (survey_id : Int)
    (survey_data : String) : Bool × List HttpRequest :=
  (true, [])

/-- The import URL built by the dead block of `save_survey` (line 98). -/
def surveyImportUrl (survey_id : Int) : String :=
  "https://beta7.voxco.com/api/survey/import/json/" ++ toString survey_id

/-- The code of `save_survey` after its early `return True`
(gemini_client.py lines 94-112), embedded on its own: it is unreachable
in the source, and `save_survey` never consults it. -/
def save_survey_dead_code (net : Net) (token : Option String) (survey_id : Int)
    (survey_data : String) : Bool × List HttpRequest :=
  if truthyStr token = false then (false, [])
  else
    let req : HttpRequest :=
      { method := "POST", url := surveyImportUrl survey_id,
        headers := [("Authorization", "Client " ++ token.getD ""),
                    ("Content-Type", "application/json")] }
    match net req with
    | .ok _ => (true, [req])
    | .httpError => (false, [req])
    | .transportError => (false, [req])

/-! ## The configuration module -/

/-- Modelled from the spec: the repository's `config` module is imported by
both source files but its file is not among the sources.  Per the spec's
configuration surface it carries the API key, the model identifier, the
system prompt and the exit-phrase set, each resolved from the
environment/config with CLI overrides taking precedence; the fields here
hold the already-resolved values. -/
structure Config where
  GEMINI_API_KEY : Option String
  SYSTEM_PROMPT : Option String
  GEMINI_MODEL : String
  EXIT_COMMANDS : List String

/-! ## gemini_client.py, class GeminiClient -/

/-- The state of a `GeminiClient` (gemini_client.py lines 118-168): the
fields assigned in `__init__` that later code reads or writes.  The
`genai` client and chat handles are opaque backend objects; the backend
itself enters as an oracle argument of `GeminiClient.send_message`. -/
structure GeminiClient where
  api_key : Option String
  system_prompt : Option String
  voxco_token : Option JValue

/-- `GeminiClient.__init__` (lines 121-149): resolve the key as
`api_key or config.GEMINI_API_KEY`; raise `ValueError` when the result is
falsy; otherwise resolve the system prompt the same way and start with no
Voxco token. -/
def GeminiClient.init (cfg : Config) (api_key system_prompt : Option String) :
    Except PyExc GeminiClient :=
  let key := pyOrStr api_key cfg.GEMINI_API_KEY
  if truthyStr key = false then
    .error (.valueError
      "Gemini API key is required. Set it in .env file or pass it to the constructor.")
  else
    .ok { api_key := key,
          system_prompt := pyOrStr system_prompt cfg.SYSTEM_PROMPT,
          voxco_token := none }

/-- `GeminiClient.authenticate_with_voxco` (lines 151-168): call
`authenticate_voxco`; store the token in `self.voxco_token` only when it
is truthy; return the token.  The result is (returned value, new client
state, issued requests). -/
def GeminiClient.authenticate_with_voxco (c : GeminiClient) (net : Net)
    (username password : String) :
    Except PyExc (Option JValue) × GeminiClient × List HttpRequest :=
  match authenticate_voxco net username password with
  | (.ok token, reqs) =>
    if truthyJ token then (.ok token, { c with voxco_token := token }, reqs)
    else (.ok token, c, reqs)
  | (.error e, reqs) => (.error e, c, reqs)

/-- `GeminiClient.send_message` (lines 170-194): forward the message to the
chat backend (which runs any tool calls internally) and return its text;
the bare `except Exception` turns every raised exception into the string
`"Error in processing: " ++ str(e)`, so the method itself never raises —
its Lean type is plain `String`. -/
def GeminiClient.send_message (c : GeminiClient)
    (backend : String → Except PyExc String) (message : String) : String :=
  match backend message with
  | .ok text => text
  | .error e => "Error in processing: " ++ e.message

/-- The class `GeminiClient` defines only `__init__`,
`authenticate_with_voxco` and `send_message`; it has no `process_file`
method, so the attribute access `client.process_file` performed by
`main.chat` raises `AttributeError` (CPython's message quotes the class
and attribute names; the quotes are omitted here). -/
def GeminiClient.process_file_call (c : GeminiClient) (path : String) :
    Except PyExc String :=
  .error (.attributeError "GeminiClient object has no attribute process_file")

/-! ## main.py, the interactive shell -/

/-- Console output produced during one iteration of the chat loop. -/
inductive ShellAction where
  | printGoodbye
  | printEmptyFileError
  | printFileNotFound (path : String)
  | printCaughtError (msg : String)
  | displayResponse (text : String)
deriving Repr, DecidableEq

/-- Whether one loop iteration breaks out of the loop or re-prompts. -/
inductive StepResult where
  | exitLoop
  | continueLoop
deriving Repr, DecidableEq

/-- One iteration of the chat loop in `main.chat` (main.py lines 79-111),
after `input()` returned `user_input`.  The result is (loop control,
console actions, messages sent to the chat backend).  The branches are,
in source order: exit-phrase check, `"file "` command (empty path, then
missing path, then the `client.process_file` call inside `try`), and the
regular `client.send_message` path inside `try`. -/
def chatStep (cfg : Config) (fileExists : String → Bool)
    (backend : String → Except PyExc String) (client : GeminiClient)
    (user_input : String) : StepResult × List ShellAction × List String :=
  if cfg.EXIT_COMMANDS.contains (pyStrip (pyLower user_input)) then
    (.exitLoop, [.printGoodbye], [])
  else if pyStartsWith (pyLower user_input) "file " then
    let file_path := pyStrip (pyDrop user_input 5)
    if file_path = "" then
      (.continueLoop, [.printEmptyFileError], [])
    else if fileExists file_path = false then
      (.continueLoop, [.printFileNotFound file_path], [])
    else
      match client.process_file_call file_path with
      | .ok text => (.continueLoop, [.displayResponse text], [])
      | .error e => (.continueLoop, [.printCaughtError e.message], [])
  else
    (.continueLoop,
     [.displayResponse (client.send_message backend user_input)], [user_input])

/-- What the `chat` command does before the loop can start. -/
inductive CliOutcome where
  | enterLoop (client : GeminiClient)
  | exitWithCode (code : Nat)

/-- The startup phase of `main.chat` (main.py lines 68-119): construct
`GeminiClient()` with no constructor arguments; `except ValueError` (the
API-key check) and the fallback `except Exception` both print an error
and call `sys.exit(1)`. -/
def chatStartup (cfg : Config) : CliOutcome :=
  match GeminiClient.init cfg none none with
  | .ok c => .enterLoop c
  | .error (.valueError _) => .exitWithCode 1
  | .error _ => .exitWithCode 1

/-! ## Concrete fixtures used by witnesses -/

/-- A concrete configuration for witnesses: a key is present and the
exit-phrase set is a small fixed set as in the spec. -/
def cfgDemo : Config :=
  { GEMINI_API_KEY := some "k", SYSTEM_PROMPT := some "be helpful",
    GEMINI_MODEL := "gemini-2.0-flash", EXIT_COMMANDS := ["exit", "quit", "bye"] }

/-- A concrete client state for witnesses. -/
def clientDemo : GeminiClient :=
  { api_key := some "k", system_prompt := some "be helpful", voxco_token := none }

/-- A concrete backend for witnesses that always answers. -/
def backendDemo : String → Except PyExc String := fun _ => .ok "hello"

/-! ## Claims -/

/-- C1: for every network environment, token, survey id and survey data,
`save_survey` returns the success flag `True` and issues no HTTP request:
the unconditional `return True` on line 93 precedes all network logic, so
the result is `True` regardless of input. -/
theorem save_survey_always_true_no_http (net : Net) (token : Option String)
    (survey_id : Int) (survey_data : String) :
    save_survey net token survey_id survey_data = (true, []) := rfl

/-- C2: for every survey id and network environment, `load_survey` called
with an absent/falsy token returns `None` and issues no HTTP request: the
token check precedes any network call. -/
theorem load_survey_falsy_token_no_http (net : Net) (token : Option String)
    (survey_id : Int) (h : truthyStr token = false) :
    load_survey net token survey_id = (none, []) := by
  unfold load_survey
  rw [h]
  simp

/-- Witness for C2 at the concrete inputs `token = none`, `survey_id = 7`. -/
theorem load_survey_falsy_token_no_http_witness :
    truthyStr (none : Option String) = false ∧
      load_survey (fun _ => .transportError) none 7 = (none, []) :=
  ⟨rfl, load_survey_falsy_token_no_http (fun _ => .transportError) none 7 rfl⟩

/-- C3: for every username and password, if the HTTP round trip fails with a
transport error or a non-2xx status, `authenticate_voxco` returns `None`
and does not raise (`.ok none`: the `RequestException` is caught). -/
theorem authenticate_voxco_failure_returns_none (net : Net)
    (username password : String)
    (h : net (authRequest username password) = .httpError ∨
         net (authRequest username password) = .transportError) :
    authenticate_voxco net username password
      = (.ok none, [authRequest username password]) := by
  simp only [authenticate_voxco]
  rcases h with h | h <;> rw [h]

/-- Witness for C3 at concrete credentials against a network that always
answers with a non-2xx status. -/
theorem authenticate_voxco_failure_returns_none_witness :
    ((fun _ => .httpError : Net) (authRequest "alice" "pw") = .httpError ∨
      (fun _ => .httpError : Net) (authRequest "alice" "pw") = .transportError) ∧
    authenticate_voxco (fun _ => .httpError) "alice" "pw"
      = (.ok none, [authRequest "alice" "pw"]) :=
  ⟨Or.inl rfl,
   authenticate_voxco_failure_returns_none (fun _ => .httpError) "alice" "pw"
     (Or.inl rfl)⟩

/-- C9: for every username and password, if the authentication request
succeeds (2xx) but the returned JSON object has no `"Token"` field,
`authenticate_voxco` returns `None` without raising: HTTP-level success
does not guarantee a present token. -/
theorem authenticate_voxco_missing_token_field (net : Net)
    (username password : String) (fields : List (String × JValue))
    (hok : net (authRequest username password) = .ok (.obj fields))
    (hmiss : List.lookup "Token" fields = none) :
    authenticate_voxco net username password
      = (.ok none, [authRequest username password]) := by
  simp only [authenticate_voxco]
  rw [hok]
  simp [JValue.get, hmiss]

/-- Witness for C9 against a network whose 2xx body is a JSON object with a
`"Status"` field but no `"Token"` field. -/
theorem authenticate_voxco_missing_token_field_witness :
    ((fun _ => .ok (.obj [("Status", .str "ok")]) : Net)
        (authRequest "alice" "pw") = .ok (.obj [("Status", .str "ok")])) ∧
    List.lookup "Token" [("Status", JValue.str "ok")] = none ∧
    authenticate_voxco (fun _ => .ok (.obj [("Status", .str "ok")])) "alice" "pw"
      = (.ok none, [authRequest "alice" "pw"]) :=
  ⟨rfl, rfl,
   authenticate_voxco_missing_token_field
     (fun _ => .ok (.obj [("Status", .str "ok")])) "alice" "pw"
     [("Status", .str "ok")] rfl rfl⟩

/-- C10: for every network environment, client state, username and password,
`authenticate_with_voxco` sets the stored `voxco_token` to the returned
token exactly when authentication yields a truthy token, leaves it
unchanged otherwise (failure returns `None`, which is falsy), and
modifies no other field of the client. -/
theorem authenticate_with_voxco_token_frame (net : Net) (c : GeminiClient)
    (username password : String) :
    ((c.authenticate_with_voxco net username password).2.1).voxco_token
      = (match (authenticate_voxco net username password).1 with
         | .ok token => if truthyJ token then token else c.voxco_token
         | .error _ => c.voxco_token) ∧
    ((c.authenticate_with_voxco net username password).2.1).api_key = c.api_key ∧
    ((c.authenticate_with_voxco net username password).2.1).system_prompt
      = c.system_prompt := by
  unfold GeminiClient.authenticate_with_voxco
  rcases h : authenticate_voxco net username password with ⟨res, reqs⟩
  cases res with
  | ok token =>
    by_cases ht : truthyJ token = true <;> simp [ht]
  | error e => simp

/-- C4: for every input line whose lowercased, whitespace-trimmed form is in
the configured exit-phrase set, the loop prints the farewell and
terminates without sending anything to the chat backend or the survey
API; the exit check is the first branch, so it has priority over the
file-command branch and the regular-message branch. -/
theorem chatStep_exit_phrase (cfg : Config) (fileExists : String → Bool)
    (backend : String → Except PyExc String) (client : GeminiClient)
    (user_input : String)
    (h : cfg.EXIT_COMMANDS.contains (pyStrip (pyLower user_input)) = true) :
    chatStep cfg fileExists backend client user_input
      = (.exitLoop, [.printGoodbye], []) := by
  unfold chatStep
  rw [h]
  simp

/-- Witness for C4 at the concrete input `"  File Quit "` against a config
whose exit phrases include `"file quit"`: although the line also matches
the `"file "` command, the exit branch wins. -/
theorem chatStep_exit_phrase_witness :
    ({ cfgDemo with EXIT_COMMANDS := ["exit", "file quit"] } :
        Config).EXIT_COMMANDS.contains (pyStrip (pyLower "  File Quit ")) = true ∧
    chatStep { cfgDemo with EXIT_COMMANDS := ["exit", "file quit"] }
        (fun _ => true) backendDemo clientDemo "  File Quit "
      = (.exitLoop, [.printGoodbye], []) :=
  ⟨by decide,
   chatStep_exit_phrase { cfgDemo with EXIT_COMMANDS := ["exit", "file quit"] }
     (fun _ => true) backendDemo clientDemo "  File Quit " (by decide)⟩

/-- C5: when no API key is available from the constructor parameter, the
environment or the configuration, constructing `GeminiClient` raises
`ValueError`, the CLI catches it and exits with code 1, and `ValueError`
is the only error the constructor can raise. -/
theorem init_no_api_key_raises_and_cli_exits_one (cfg : Config)
    (api_key system_prompt : Option String)
    (hp : truthyStr api_key = false)
    (hc : truthyStr cfg.GEMINI_API_KEY = false) :
    GeminiClient.init cfg api_key system_prompt
      = .error (.valueError
        "Gemini API key is required. Set it in .env file or pass it to the constructor.") ∧
    chatStartup cfg = .exitWithCode 1 ∧
    (∀ p s e, GeminiClient.init cfg p s = .error e →
      ∃ m, e = PyExc.valueError m) := by
  have hinit : ∀ p : Option String, truthyStr p = false →
      ∀ s, GeminiClient.init cfg p s
        = .error (.valueError
          "Gemini API key is required. Set it in .env file or pass it to the constructor.") := by
    intro p hpf s
    unfold GeminiClient.init
    simp [pyOrStr, hpf, hc]
  refine ⟨hinit api_key hp system_prompt, ?_, ?_⟩
  · unfold chatStartup
    rw [hinit none rfl none]
  · intro p s e he
    by_cases hpt : truthyStr p = true
    · unfold GeminiClient.init at he
      simp [pyOrStr, hpt] at he
    · rw [hinit p (by simpa using hpt) s] at he
      exact ⟨_, (Except.error.injEq _ _).mp he.symm⟩

/-- Witness for C5 at a concrete configuration carrying no API key. -/
theorem init_no_api_key_raises_and_cli_exits_one_witness :
    truthyStr (none : Option String) = false ∧
    truthyStr ({ cfgDemo with GEMINI_API_KEY := none } : Config).GEMINI_API_KEY
      = false ∧
    (GeminiClient.init { cfgDemo with GEMINI_API_KEY := none } none none
      = .error (.valueError
        "Gemini API key is required. Set it in .env file or pass it to the constructor.") ∧
    chatStartup { cfgDemo with GEMINI_API_KEY := none } = .exitWithCode 1 ∧
    (∀ p s e,
      GeminiClient.init { cfgDemo with GEMINI_API_KEY := none } p s = .error e →
      ∃ m, e = PyExc.valueError m)) :=
  ⟨rfl, rfl,
   init_no_api_key_raises_and_cli_exits_one
     { cfgDemo with GEMINI_API_KEY := none } none none rfl rfl⟩

/-- C6: for every input line that case-insensitively starts with `"file "`
and is not an exit phrase, if the remaining text is empty or names a path
that does not exist, the shell prints a local error, sends nothing to the
chat backend, and the loop continues. -/
theorem chatStep_file_local_error (cfg : Config) (fileExists : String → Bool)
    (backend : String → Except PyExc String) (client : GeminiClient)
    (user_input : String)
    (hexit : cfg.EXIT_COMMANDS.contains (pyStrip (pyLower user_input)) = false)
    (hfile : pyStartsWith (pyLower user_input) "file " = true)
    (hbad : pyStrip (pyDrop user_input 5) = "" ∨
            fileExists (pyStrip (pyDrop user_input 5)) = false) :
    chatStep cfg fileExists backend client user_input
      = (.continueLoop,
         [if pyStrip (pyDrop user_input 5) = "" then .printEmptyFileError
          else .printFileNotFound (pyStrip (pyDrop user_input 5))], []) := by
  unfold chatStep
  rw [hexit, hfile]
  rcases hbad with hbad | hbad
  · simp [hbad]
  · by_cases hempty : pyStrip (pyDrop user_input 5) = "" <;> simp [hempty, hbad]

/-- Witness for C6 at the concrete input `"file nope.txt"` on a filesystem
with no files. -/
theorem chatStep_file_local_error_witness :
    cfgDemo.EXIT_COMMANDS.contains (pyStrip (pyLower "file nope.txt")) = false ∧
    pyStartsWith (pyLower "file nope.txt") "file " = true ∧
    (pyStrip (pyDrop "file nope.txt" 5) = "" ∨
      (fun _ => false : String → Bool) (pyStrip (pyDrop "file nope.txt" 5)) = false) ∧
    chatStep cfgDemo (fun _ => false) backendDemo clientDemo "file nope.txt"
      = (.continueLoop,
         [if pyStrip (pyDrop "file nope.txt" 5) = "" then .printEmptyFileError
          else .printFileNotFound (pyStrip (pyDrop "file nope.txt" 5))], []) :=
  ⟨by decide, by decide, Or.inr rfl,
   chatStep_file_local_error cfgDemo (fun _ => false) backendDemo clientDemo
     "file nope.txt" (by decide) (by decide) (Or.inr rfl)⟩

/-- C7: for every message on which the backend raises, `send_message`
catches the exception and returns a string describing the error instead
of raising, and the shell step on that message (not an exit phrase, not a
file command) displays this string and continues the loop. -/
theorem send_message_catches_and_loop_continues (cfg : Config)
    (fileExists : String → Bool) (backend : String → Except PyExc String)
    (client : GeminiClient) (user_input : String) (e : PyExc)
    (hb : backend user_input = .error e)
    (hexit : cfg.EXIT_COMMANDS.contains (pyStrip (pyLower user_input)) = false)
    (hfile : pyStartsWith (pyLower user_input) "file " = false) :
    client.send_message backend user_input
      = "Error in processing: " ++ e.message ∧
    chatStep cfg fileExists backend client user_input
      = (.continueLoop,
         [.displayResponse ("Error in processing: " ++ e.message)],
         [user_input]) := by
  have hsend : client.send_message backend user_input
      = "Error in processing: " ++ e.message := by
    unfold GeminiClient.send_message
    rw [hb]
  refine ⟨hsend, ?_⟩
  unfold chatStep
  rw [hexit, hfile, hsend]
  simp

/-- Witness for C7 at the concrete message `"hello"` against a backend that
always raises `RuntimeError("boom")`. -/
theorem send_message_catches_and_loop_continues_witness :
    (fun _ => .error (.runtimeError "boom") : String → Except PyExc String)
        "hello" = .error (.runtimeError "boom") ∧
    cfgDemo.EXIT_COMMANDS.contains (pyStrip (pyLower "hello")) = false ∧
    pyStartsWith (pyLower "hello") "file " = false ∧
    (clientDemo.send_message (fun _ => .error (.runtimeError "boom")) "hello"
      = "Error in processing: " ++ (PyExc.runtimeError "boom").message ∧
    chatStep cfgDemo (fun _ => false) (fun _ => .error (.runtimeError "boom"))
        clientDemo "hello"
      = (.continueLoop,
         [.displayResponse
            ("Error in processing: " ++ (PyExc.runtimeError "boom").message)],
         ["hello"])) :=
  ⟨rfl, by decide, by decide,
   send_message_catches_and_loop_continues cfgDemo (fun _ => false)
     (fun _ => .error (.runtimeError "boom")) clientDemo "hello"
     (.runtimeError "boom") rfl (by decide) (by decide)⟩

/-- C8 (failing input): on the concrete input `"file notes.txt"` with
`notes.txt` present, the shell does not read the file or display a model
reply; the `client.process_file` attribute access raises
`AttributeError` (the method does not exist on `GeminiClient`), which the
file branch catches and prints, and nothing is sent to the chat
backend. -/
theorem chatStep_existing_file_attribute_error :
    chatStep cfgDemo (fun _ => true) backendDemo clientDemo "file notes.txt"
      = (.continueLoop,
         [.printCaughtError "GeminiClient object has no attribute process_file"],
         []) := by decide

end VoxcoSurveyBot
